import Mathlib

/-!
Shallow embedding of the core pipeline of the singapore-transport-intelligence
repository (src/data_collector.py, src/database.py, src/analytics.py,
src/alerts.py), together with theorems settling the frozen claims about it.

Conventions of the embedding:
* Python floats are modelled as rationals (`ℚ`); Python's `round(x, d)`
  (round-half-to-even) is modelled by `roundTo d`.
* Timestamps are seconds: `ℤ` for recorded-at / hour-start values,
  `ℚ` for alert creation times.
* The SQLite stores are modelled as lists of rows; `INSERT OR REPLACE`
  against the `UNIQUE(hour_timestamp)` constraint is modelled by removing
  every row with the same key and appending the new row.
* Fallible operations return `Except`/`Option`; the per-stop fetch outcome
  (timeout, transport error, non-2xx status) is an `Except.error`.
* String-typed enumerations ("SEVERE", "CRITICAL", "SEVERE_CONGESTION", ...)
  are kept as the string literals the Python code uses.
-/

/-! ### Numeric helpers -/

/-- Python `round(x)` / float formatting with 0 decimals: round half to even. -/
def roundHalfEven (x : ℚ) : ℤ :=
  let f := ⌊x⌋
  let r := x - (f : ℚ)
  if r < 1/2 then f
  else if 1/2 < r then f + 1
  else if f % 2 = 0 then f else f + 1

/-- Python `round(x, d)`: round half to even at `d` decimal places. -/
def roundTo (d : ℕ) (x : ℚ) : ℚ :=
  (roundHalfEven (x * 10 ^ d) : ℚ) / 10 ^ d

/-- Arithmetic mean of a list of rationals (pandas `.mean()` on a non-empty
series; this embedding only ever applies it to non-empty lists). -/
def listMean (xs : List ℚ) : ℚ :=
  xs.sum / (xs.length : ℚ)

/-! ### src/data_collector.py -/

/-- The estimated-arrival value of a service entry as the collector observes
it: absent (empty/missing `EstimatedArrival`, skipped by the truthiness
check), or present with a parse outcome — `some minutesUntil` when
`datetime.fromisoformat` succeeds (`minutesUntil` = minutes from now until
the arrival), `none` when it raises (malformed timestamp). -/
inductive EstArrival where
  | absent
  | present (parsed : Option ℚ)
deriving DecidableEq, Repr

/-- The delay heuristic of `calculate_delay` applied to a successfully
parsed timestamp, expressed over `minutes_until` = minutes until arrival. -/
def delayFromMinutes (minutes_until : ℚ) : ℚ :=
  if minutes_until > 15 then minutes_until - 10
  else if minutes_until < 2 then -(2 - minutes_until)
  else 0

/-- `calculate_delay(estimated_arrival_str)`: on a parseable timestamp the
heuristic value, on any exception (malformed value) the fallback `0`. -/
def calculate_delay : Option ℚ → ℚ
  | some minutes_until => delayFromMinutes minutes_until
  | none => 0

/-- One service entry of the upstream feed response (`ServiceNo`,
`NextBus.EstimatedArrival`, `NextBus.Load` with its `"N/A"` default folded
in). -/
structure ServiceEntry where
  service_no : String
  next_bus_est : EstArrival
  load : String
deriving DecidableEq, Repr

/-- One arrival record as accumulated by `fetch_and_store_bus_data` and
bulk-inserted into `bus_arrivals`. -/
structure ArrivalRecord where
  bus_stop_code : String
  bus_number : String
  load_status : String
  delay_minutes : ℚ
deriving DecidableEq, Repr

/-- The records contributed by one monitored stop: none when the fetch
failed (timeout / transport error / non-200 status, `continue`), otherwise
one record per service entry whose estimated arrival is present (absent
entries fail the truthiness check and are skipped). -/
def recordsForStop (bus_stop : String) (result : Except String (List ServiceEntry)) :
    List ArrivalRecord :=
  match result with
  | .error _ => []
  | .ok services =>
      services.filterMap (fun s =>
        match s.next_bus_est with
        | .absent => none
        | .present parsed =>
            some { bus_stop_code := bus_stop
                   bus_number := s.service_no
                   load_status := s.load
                   delay_minutes := calculate_delay parsed })

/-- `fetch_and_store_bus_data`: the batch of arrival records accumulated
over the monitored stops (each paired with its fetch outcome) and handed to
`bulk_insert_arrivals` at the end of the cycle. -/
def fetch_and_store_bus_data
    (stops : List (String × Except String (List ServiceEntry))) : List ArrivalRecord :=
  stops.flatMap (fun p => recordsForStop p.1 p.2)

/-! ### src/database.py -/

/-- One `bus_arrivals` row (the columns the hourly aggregation reads). -/
structure BusArrival where
  bus_stop_code : String
  bus_number : String
  load_status : String
  recorded_at : ℤ
  delay_minutes : ℚ
deriving DecidableEq, Repr

/-- One `hourly_statistics` row. -/
structure HourlyStat where
  hour_timestamp : ℤ
  total_buses : ℕ
  avg_delay : ℚ
  severe_delays : ℕ
  sea_count : ℕ
  sda_count : ℕ
  lsd_count : ℕ
deriving DecidableEq, Repr

/-- The `bus_arrivals` rows with `recorded_at` in
`[hour_start, hour_start + 1 hour)` — the `WHERE` clause of
`calculate_hourly_stats`. -/
def hourWindow (rows : List BusArrival) (hour_start : ℤ) : List BusArrival :=
  rows.filter (fun a =>
    decide (hour_start ≤ a.recorded_at) && decide (a.recorded_at < hour_start + 3600))

/-- The aggregate row the `SELECT COUNT/AVG/SUM ...` of
`calculate_hourly_stats` computes for one hour window. -/
def mkHourlyStat (hour_start : ℤ) (rows : List BusArrival) : HourlyStat where
  hour_timestamp := hour_start
  total_buses := rows.length
  avg_delay := listMean (rows.map (fun a => a.delay_minutes))
  severe_delays := (rows.filter (fun a => decide (a.delay_minutes > 10))).length
  sea_count := (rows.filter (fun a => a.load_status == "SEA")).length
  sda_count := (rows.filter (fun a => a.load_status == "SDA")).length
  lsd_count := (rows.filter (fun a => a.load_status == "LSD")).length

/-- `INSERT OR REPLACE INTO hourly_statistics` under the
`UNIQUE(hour_timestamp)` constraint: drop any row with the same hour key,
insert the new row. -/
def upsertHourlyStatistic (db : List HourlyStat) (stat : HourlyStat) : List HourlyStat :=
  db.filter (fun r => r.hour_timestamp != stat.hour_timestamp) ++ [stat]

/-- `TransportDatabase.calculate_hourly_stats`, with the store, the raw
observations, and the computed hour-start made explicit: if the hour window
holds at least one observation, upsert the aggregate row and return it;
otherwise leave the store untouched and return `none`. -/
def calculate_hourly_stats (db : List HourlyStat) (rows : List BusArrival)
    (hour_start : ℤ) : List HourlyStat × Option HourlyStat :=
  let w := hourWindow rows hour_start
  if 0 < w.length then
    let stat := mkHourlyStat hour_start w
    (upsertHourlyStatistic db stat, some stat)
  else (db, none)

/-! ### src/analytics.py -/

/-- The `current_stats` block of the comparison record (the
`load_distribution` dictionary flattened into the three counts). -/
structure CurrentStats where
  total_buses : ℕ
  avg_delay : ℚ
  severe_delays : ℕ
  sea_count : ℕ
  sda_count : ℕ
  lsd_count : ℕ
deriving DecidableEq, Repr

/-- The `historical_average` block; `lsd_share` embeds the field the code
names `lsd_ratio`. -/
structure HistoricalAverage where
  avg_delay : ℚ
  lsd_share : ℚ
deriving DecidableEq, Repr

/-- The `comparison` block. -/
structure ComparisonBlock where
  delay_change_percent : ℚ
  is_worse_than_usual : Bool
  congestion_level : String
deriving DecidableEq, Repr

/-- The full analysis record returned by `get_current_vs_historical` on
success. -/
structure AnalysisRecord where
  current_hour : ℤ
  current_stats : CurrentStats
  historical_average : HistoricalAverage
  comparison : ComparisonBlock
deriving DecidableEq, Repr

/-- `TransportAnalytics._determine_congestion_level(lsd_ratio, avg_delay)`;
the first parameter embeds the code's `lsd_ratio` argument. -/
def determine_congestion_level (lsd_share avg_delay : ℚ) : String :=
  if avg_delay > 15 ∨ lsd_share > 1/2 then "SEVERE"
  else if avg_delay > 10 ∨ lsd_share > 3/10 then "HIGH"
  else if avg_delay > 5 ∨ lsd_share > 3/20 then "MODERATE"
  else "LOW"

/-- `historical = df.iloc[:-1] if len(df) > 1 else df`: the rows used as the
historical baseline. -/
def historicalRows (stats : List HourlyStat) : List HourlyStat :=
  if 1 < stats.length then stats.dropLast else stats

/-- `TransportAnalytics.get_current_vs_historical` applied to the hourly
statistics read from the store (ascending by hour, so the chronologically
most recent row is the last element). The two `error` returns of the code
are the two `Except.error` branches. -/
def get_current_vs_historical (stats : List HourlyStat) : Except String AnalysisRecord :=
  if stats.isEmpty then .error ( "No historical data available" )
  else
    match stats.getLast? with
    | none => .error ( "No current data" )
    | some current =>
      let historical := historicalRows stats
      let avg_delay_hist := listMean (historical.map (fun r => r.avg_delay))
      let avg_delay_current := current.avg_delay
      let lsd_share_hist :=
        listMean (historical.map (fun r => (r.lsd_count : ℚ) / (r.total_buses : ℚ)))
      let lsd_share_current :=
        if 0 < current.total_buses then (current.lsd_count : ℚ) / (current.total_buses : ℚ)
        else 0
      .ok
        { current_hour := current.hour_timestamp
          current_stats :=
            { total_buses := current.total_buses
              avg_delay := roundTo 2 avg_delay_current
              severe_delays := current.severe_delays
              sea_count := current.sea_count
              sda_count := current.sda_count
              lsd_count := current.lsd_count }
          historical_average :=
            { avg_delay := roundTo 2 avg_delay_hist
              lsd_share := roundTo 3 lsd_share_hist }
          comparison :=
            { delay_change_percent :=
                roundTo 1 (if avg_delay_hist > 0 then
                  (avg_delay_current - avg_delay_hist) / avg_delay_hist * 100 else 0)
              is_worse_than_usual := decide (avg_delay_current > avg_delay_hist * (12/10))
              congestion_level :=
                determine_congestion_level lsd_share_current avg_delay_current } }

/-- `True` exactly on the "no data" (`error`) results of the analyzer. -/
def isNoDataResult : Except String AnalysisRecord → Bool
  | .error _ => true
  | .ok _ => false

/-! ### src/alerts.py -/

/-- One alert as built by `AlertManager._create_alert` and persisted through
`insert_alert` (the detail payload as metric-name/value pairs). -/
structure AlertData where
  alert_type : String
  severity : String
  message : String
  details : List (String × ℚ)
deriving DecidableEq, Repr

/-- The CRITICAL severe-congestion alert of rule 1. -/
def mkSevereCongestionAlert (cs : CurrentStats) : AlertData where
  alert_type := "SEVERE_CONGESTION"
  severity := "CRITICAL"
  message := "Severe congestion detected across the network"
  details := [( "avg_delay", cs.avg_delay), ( "severe_delays", (cs.severe_delays : ℚ)),
    ( "lsd_count", (cs.lsd_count : ℚ))]

/-- The WARNING unusual-delay alert of rule 2. -/
def mkUnusualDelayAlert (delay_change : ℚ) (cs : CurrentStats) : AlertData where
  alert_type := "UNUSUAL_DELAY"
  severity := "WARNING"
  message := "Traffic delays are " ++ toString (roundHalfEven delay_change)
    ++ "% higher than usual"
  details := [( "delay_change_percent", delay_change), ( "current_avg_delay", cs.avg_delay)]

/-- The WARNING high-LSD-ratio alert of rule 3 (the spec's
HIGH_CROWDING_RATIO kind); `lsd_share` embeds the code's `lsd_ratio`. -/
def mkHighLsdAlert (lsd_share : ℚ) (cs : CurrentStats) : AlertData where
  alert_type := "HIGH_LSD_RATIO"
  severity := "WARNING"
  message := toString (roundHalfEven (lsd_share * 100)) ++ "% of buses are severely crowded"
  details := [( "lsd_ratio", lsd_share), ( "lsd_count", (cs.lsd_count : ℚ)),
    ( "total_buses", (cs.total_buses : ℚ))]

/-- `AlertManager.check_and_create_alerts`, as a function of the comparison
the analyzer produced: the list of new alerts created (in creation order).
On an `error` comparison the `if "error" not in comparison` guard skips all
rules and no alert is created. -/
def check_and_create_alerts (comparison : Except String AnalysisRecord) : List AlertData :=
  match comparison with
  | .error _ => []
  | .ok c =>
    let congestion_level := c.comparison.congestion_level
    let delay_change := c.comparison.delay_change_percent
    let cs := c.current_stats
    let congestionAlerts :=
      if congestion_level = "SEVERE" then [mkSevereCongestionAlert cs]
      else if congestion_level = "HIGH" ∧ delay_change > 50 then
        [mkUnusualDelayAlert delay_change cs]
      else []
    let lsd_share := (cs.lsd_count : ℚ) / (cs.total_buses : ℚ)
    let lsdAlerts := if lsd_share > 2/5 then [mkHighLsdAlert lsd_share cs] else []
    congestionAlerts ++ lsdAlerts

/-- The alert store after a `check_and_create_alerts` run: each new alert is
persisted through `insert_alert` inside `_create_alert`, in creation
order. -/
def insert_alerts (db : List AlertData) (comparison : Except String AnalysisRecord) :
    List AlertData :=
  db ++ check_and_create_alerts comparison

/-- The alerts for which `_send_notifications` attempts an email send: every
new alert is dispatched to `_send_notifications`, which sends iff email is
enabled and the severity is CRITICAL or WARNING. -/
def emailedAlerts (email_enabled : Bool) (new_alerts : List AlertData) : List AlertData :=
  new_alerts.filter (fun a =>
    email_enabled && (a.severity == "CRITICAL" || a.severity == "WARNING"))

/-- One `congestion_alerts` row as read back by `get_active_alerts`
(creation time in seconds; `resolved_at = none` means OPEN). -/
structure StoredAlert where
  id : ℕ
  alert_type : String
  severity : String
  created_at : ℚ
  resolved_at : Option ℚ
deriving DecidableEq, Repr

/-- `TransportDatabase.resolve_alert`: set `resolved_at` to the current
timestamp. -/
def resolve_alert (now : ℚ) (a : StoredAlert) : StoredAlert :=
  { a with resolved_at := some now }

/-- The per-alert step of `AlertManager.auto_resolve_old_alerts`: an OPEN
alert (the sweep only iterates `get_active_alerts`, i.e. rows with
`resolved_at` null) whose age strictly exceeds `hours * 3600` seconds is
resolved; every other alert is left untouched. -/
def sweepAlert (now : ℚ) (hours : ℕ) (a : StoredAlert) : StoredAlert :=
  if a.resolved_at = none ∧ now - a.created_at > (hours : ℚ) * 3600 then
    resolve_alert now a
  else a

/-- `AlertManager.auto_resolve_old_alerts` over the whole alert store. -/
def auto_resolve_old_alerts (now : ℚ) (hours : ℕ) (alerts : List StoredAlert) :
    List StoredAlert :=
  alerts.map (sweepAlert now hours)

/-! ### Concrete sample data used by witnesses and counterexamples -/

/-- A concrete analysis record matching the C1 scenario. -/
def severeScenarioRecord : AnalysisRecord where
  current_hour := 0
  current_stats :=
    { total_buses := 10, avg_delay := 18, severe_delays := 4, sea_count := 2,
      sda_count := 2, lsd_count := 6 }
  historical_average := { avg_delay := 9, lsd_share := 1/5 }
  comparison :=
    { delay_change_percent := 100, is_worse_than_usual := true,
      congestion_level := "SEVERE" }

/-- A concrete hourly-statistics row. -/
def singleHourStat : HourlyStat where
  hour_timestamp := 0
  total_buses := 5
  avg_delay := 8
  severe_delays := 1
  sea_count := 2
  sda_count := 2
  lsd_count := 1

/-- A concrete hourly-statistics row one hour earlier. -/
def hourStatA : HourlyStat where
  hour_timestamp := -3600
  total_buses := 4
  avg_delay := 6
  severe_delays := 0
  sea_count := 3
  sda_count := 1
  lsd_count := 0

/-- A concrete raw observation recorded inside the hour starting at 0. -/
def sampleArrival : BusArrival where
  bus_stop_code := "01012"
  bus_number := "12"
  load_status := "SEA"
  recorded_at := 60
  delay_minutes := 3

/-- An OPEN alert created 3 hours before time 0. -/
def alertAge3h : StoredAlert where
  id := 1
  alert_type := "SEVERE_CONGESTION"
  severity := "CRITICAL"
  created_at := -10800
  resolved_at := none

/-- An OPEN alert created 1 hour before time 0. -/
def alertAge1h : StoredAlert where
  id := 2
  alert_type := "HIGH_LSD_RATIO"
  severity := "WARNING"
  created_at := -3600
  resolved_at := none

/-- A single monitored stop whose only service entry carries a malformed
(present but unparseable) estimated-arrival value. -/
def malformedEntryStop : List (String × Except String (List ServiceEntry)) :=
  [( "01012",
     Except.ok [{ service_no := "12", next_bus_est := EstArrival.present none,
                  load := "SEA" }])]

/-- A service entry with a parseable estimated arrival 20 minutes out. -/
def okStopEntry : ServiceEntry where
  service_no := "12"
  next_bus_est := EstArrival.present (some 20)
  load := "SDA"

/-- `True` on a store in which every hourly row has a positive observation
count. -/
def allTotalsPos (db : List HourlyStat) : Bool :=
  db.all (fun r => decide (1 ≤ r.total_buses))

/-! ### Theorems settling the claims -/

/-- A cons list always has a last element, and it is a member of the list. -/
theorem exists_getLast?_mem {α : Type} (a : α) (l : List α) :
    ∃ cur, (a :: l).getLast? = some cur ∧ cur ∈ a :: l := by
  induction l generalizing a with
  | nil => exact ⟨a, rfl, List.mem_singleton_self a⟩
  | cons b t ih =>
      obtain ⟨cur, h1, h2⟩ := ih b
      exact ⟨cur, by rw [List.getLast?_cons_cons]; exact h1, List.mem_cons_of_mem a h2⟩

/-- C2: for every mean delay `d` and high-load share `r`, the congestion
classification returns SEVERE iff `d > 15` or `r > 0.5`; otherwise HIGH iff
`d > 10` or `r > 0.3`; otherwise MODERATE iff `d > 5` or `r > 0.15`;
otherwise LOW — in that priority order, with strict boundaries, so
`d = 15.0, r = 0` yields HIGH, `d = 15.01` yields SEVERE and
`d = 4.9, r = 0` yields LOW. -/
theorem determine_congestion_level_bands (d r : ℚ) :
    (determine_congestion_level r d = "SEVERE" ↔ (d > 15 ∨ r > 1/2)) ∧
    (determine_congestion_level r d = "HIGH" ↔
      (¬(d > 15 ∨ r > 1/2) ∧ (d > 10 ∨ r > 3/10))) ∧
    (determine_congestion_level r d = "MODERATE" ↔
      (¬(d > 15 ∨ r > 1/2) ∧ ¬(d > 10 ∨ r > 3/10) ∧ (d > 5 ∨ r > 3/20))) ∧
    (determine_congestion_level r d = "LOW" ↔
      (¬(d > 15 ∨ r > 1/2) ∧ ¬(d > 10 ∨ r > 3/10) ∧ ¬(d > 5 ∨ r > 3/20))) ∧
    determine_congestion_level 0 15 = "HIGH" ∧
    determine_congestion_level 0 (15.01 : ℚ) = "SEVERE" ∧
    determine_congestion_level 0 (4.9 : ℚ) = "LOW" := by
  unfold determine_congestion_level
  refine ⟨?_, ?_, ?_, ?_, by norm_num, by norm_num, by norm_num⟩ <;>
    split_ifs with h1 h2 h3 <;> simp_all

/-- C2 witness: the classification evaluated at the boundary input
`d = 15, r = 0`, by the band theorem. -/
theorem determine_congestion_level_bands_witness :
    determine_congestion_level 0 15 = "HIGH" :=
  (determine_congestion_level_bands 15 0).2.2.2.2.1

/-- C6: for every parseable estimated arrival `m` minutes away, the delay
heuristic returns `m - 10` when `m > 15`, `-(2 - m)` when `m < 2`, and `0`
otherwise; in particular 20 minutes out gives 10, 1 minute out gives −1 and
5 minutes out gives 0. -/
theorem calculate_delay_heuristic (m : ℚ) :
    (m > 15 → calculate_delay (some m) = m - 10) ∧
    (m < 2 → calculate_delay (some m) = -(2 - m)) ∧
    (2 ≤ m → m ≤ 15 → calculate_delay (some m) = 0) ∧
    calculate_delay (some 20) = 10 ∧
    calculate_delay (some 1) = -1 ∧
    calculate_delay (some 5) = 0 := by
  simp only [calculate_delay, delayFromMinutes]
  refine ⟨?_, ?_, ?_, by norm_num, by norm_num, by norm_num⟩
  · intro h; rw [if_pos h]
  · intro h; rw [if_neg (by linarith), if_pos h]
  · intro h1 h2; rw [if_neg (by linarith), if_neg (by linarith)]

/-- C6 witness: the heuristic evaluated at 20, 1 and 5 minutes out, each
discharged through the heuristic theorem. -/
theorem calculate_delay_heuristic_witness :
    calculate_delay (some 20) = 20 - 10 ∧
    calculate_delay (some 1) = -(2 - 1) ∧
    calculate_delay (some 5) = 0 :=
  ⟨(calculate_delay_heuristic 20).1 (by norm_num),
   (calculate_delay_heuristic 1).2.1 (by norm_num),
   (calculate_delay_heuristic 5).2.2.1 (by norm_num) (by norm_num)⟩

/-- C1: for every comparison whose congestion level is SEVERE and whose
current statistics have mean delay 18, LSD count 6 and total count 10,
`check_and_create_alerts` creates and persists exactly two alerts — one
CRITICAL SEVERE_CONGESTION alert and one WARNING alert of the kind the spec
calls HIGH_CROWDING_RATIO (the code's HIGH_LSD_RATIO, since 6/10 = 0.6 >
0.4) — and hands both to the notification dispatch (both severities qualify
for the email channel). -/
theorem check_and_create_alerts_severe_scenario (c : AnalysisRecord) (db : List AlertData)
    (hlev : c.comparison.congestion_level = "SEVERE")
    (hdelay : c.current_stats.avg_delay = 18)
    (hlsd : c.current_stats.lsd_count = 6)
    (htot : c.current_stats.total_buses = 10) :
    check_and_create_alerts (.ok c) =
      [mkSevereCongestionAlert c.current_stats, mkHighLsdAlert (3/5) c.current_stats] ∧
    (check_and_create_alerts (.ok c)).map (fun a => (a.alert_type, a.severity)) =
      [( "SEVERE_CONGESTION", "CRITICAL"), ( "HIGH_LSD_RATIO", "WARNING")] ∧
    insert_alerts db (.ok c) = db ++ check_and_create_alerts (.ok c) ∧
    emailedAlerts true (check_and_create_alerts (.ok c)) =
      check_and_create_alerts (.ok c) := by
  have hshare : ((c.current_stats.lsd_count : ℚ) / (c.current_stats.total_buses : ℚ)) = 3/5 := by
    rw [hlsd, htot]; norm_num
  have h1 : check_and_create_alerts (.ok c) =
      [mkSevereCongestionAlert c.current_stats, mkHighLsdAlert (3/5) c.current_stats] := by
    simp only [check_and_create_alerts, hlev, hshare]
    norm_num
  refine ⟨h1, ?_, rfl, ?_⟩
  · rw [h1]; rfl
  · rw [h1]; rfl

/-- C1 witness: the scenario theorem applied to the concrete record. -/
theorem check_and_create_alerts_severe_scenario_witness :
    (check_and_create_alerts (Except.ok severeScenarioRecord)).map
      (fun a => (a.alert_type, a.severity)) =
      [( "SEVERE_CONGESTION", "CRITICAL"), ( "HIGH_LSD_RATIO", "WARNING")] :=
  (check_and_create_alerts_severe_scenario severeScenarioRecord [] rfl rfl rfl rfl).2.1

/-- C3: the comparative analysis returns the explicit "no data" result (and
never anything exceptional — it is a total function) exactly when the
hourly-statistics window is empty or has no row for the most recent hour,
and on such a result the alert engine creates zero alerts. -/
theorem get_current_vs_historical_no_data (stats : List HourlyStat) :
    (isNoDataResult (get_current_vs_historical stats) = true ↔
      (stats = [] ∨ stats.getLast? = none)) ∧
    (isNoDataResult (get_current_vs_historical stats) = true →
      check_and_create_alerts (get_current_vs_historical stats) = []) := by
  cases stats with
  | nil => exact ⟨by simp [get_current_vs_historical, isNoDataResult], fun _ => rfl⟩
  | cons a l =>
      obtain ⟨cur, hcur⟩ : ∃ cur, (a :: l).getLast? = some cur := by
        cases h : (a :: l).getLast? with
        | none => simp at h
        | some cur => exact ⟨cur, rfl⟩
      have hfalse : isNoDataResult (get_current_vs_historical (a :: l)) = false := by
        unfold get_current_vs_historical
        rw [List.isEmpty_cons, if_neg (by simp), hcur]
        rfl
      refine ⟨?_, ?_⟩
      · rw [hfalse]; simp [hcur]
      · intro h; rw [hfalse] at h; cases h

/-- C3 witness: the empty window yields the "no data" result and zero
alerts, through the no-data theorem. -/
theorem get_current_vs_historical_no_data_witness :
    check_and_create_alerts (get_current_vs_historical []) = [] :=
  (get_current_vs_historical_no_data []).2 rfl

/-- C4 counterexample: for a window of exactly one row the code's historical
baseline is the whole window — the current row itself — not the (empty) list
of remaining earlier rows, and the reported historical average is that row's
own mean delay rather than an empty-set statistic. -/
theorem historicalRows_singleton_counterexample :
    historicalRows [singleHourStat] = [singleHourStat] ∧
    [singleHourStat].dropLast = ([] : List HourlyStat) ∧
    historicalRows [singleHourStat] ≠ [singleHourStat].dropLast ∧
    (get_current_vs_historical [singleHourStat]).toOption.map
      (fun c => c.historical_average.avg_delay) = some 8 := by
  refine ⟨rfl, rfl, ?_, ?_⟩
  · intro h
    simp [historicalRows] at h
  · simp only [get_current_vs_historical, List.isEmpty_cons, List.getLast?_singleton,
      historicalRows, singleHourStat]
    norm_num [listMean, roundTo, roundHalfEven, Except.toOption]

/-- C4 amended: for every non-empty window the chronologically last row is
"current"; the earlier rows are "historical" when the window has at least
two rows, while a one-row window uses the whole window (the current row
itself) as historical; `delay_change_percent` is the relative change of the
current mean delay against the historical mean delay, in percent, rounded
to one decimal place, and `0` when the historical mean delay is `≤ 0`. -/
theorem get_current_vs_historical_structure (stats : List HourlyStat) (current : HourlyStat)
    (hlast : stats.getLast? = some current) :
    (1 < stats.length → historicalRows stats = stats.dropLast) ∧
    (stats.length = 1 → historicalRows stats = stats) ∧
    ∀ c, get_current_vs_historical stats = Except.ok c →
      c.current_hour = current.hour_timestamp ∧
      c.current_stats.total_buses = current.total_buses ∧
      c.comparison.delay_change_percent =
        roundTo 1 (if listMean ((historicalRows stats).map (fun r => r.avg_delay)) > 0 then
          (current.avg_delay - listMean ((historicalRows stats).map (fun r => r.avg_delay))) /
            listMean ((historicalRows stats).map (fun r => r.avg_delay)) * 100
        else 0) := by
  have hne : stats ≠ [] := by
    intro h; rw [h] at hlast; simp at hlast
  refine ⟨fun h => by simp [historicalRows, h], fun h => by simp [historicalRows, h], ?_⟩
  obtain ⟨a, l, rfl⟩ : ∃ a l, stats = a :: l := by
    cases stats with
    | nil => exact absurd rfl hne
    | cons a l => exact ⟨a, l, rfl⟩
  intro c hc
  unfold get_current_vs_historical at hc
  rw [List.isEmpty_cons, if_neg (by simp), hlast] at hc
  have hrec := Except.ok.inj hc
  rw [← hrec]
  exact ⟨rfl, rfl, rfl⟩

/-- C4 witness: a two-row window, where the historical baseline is exactly
the earlier row, through the amended structure theorem. -/
theorem get_current_vs_historical_structure_witness :
    historicalRows [hourStatA, singleHourStat] = [hourStatA, singleHourStat].dropLast :=
  (get_current_vs_historical_structure [hourStatA, singleHourStat] singleHourStat
    rfl).1 (by norm_num)

/-- Replaying an upsert with the same row leaves the store unchanged. -/
theorem upsertHourlyStatistic_self (db : List HourlyStat) (stat : HourlyStat) :
    upsertHourlyStatistic (upsertHourlyStatistic db stat) stat =
      upsertHourlyStatistic db stat := by
  unfold upsertHourlyStatistic
  rw [List.filter_append, List.filter_filter]
  simp

/-- After an upsert, the rows carrying the upserted hour key are exactly the
upserted row. -/
theorem upsertHourlyStatistic_key_rows (db : List HourlyStat) (stat : HourlyStat) (k : ℤ)
    (hkey : stat.hour_timestamp = k) :
    (upsertHourlyStatistic db stat).filter
      (fun r => r.hour_timestamp == k) = [stat] := by
  subst hkey
  unfold upsertHourlyStatistic
  rw [List.filter_append, List.filter_filter]
  simp

/-- C5: the hourly aggregation is idempotent — run twice for the same hour
over the same observations it leaves the store of the first run unchanged,
with exactly one row for that hour-start, field-for-field the row of the
first run, and returns the same aggregate. -/
theorem calculate_hourly_stats_idempotent (db : List HourlyStat) (rows : List BusArrival)
    (hour_start : ℤ) (hne : 0 < (hourWindow rows hour_start).length) :
    (calculate_hourly_stats (calculate_hourly_stats db rows hour_start).1 rows hour_start).1 =
      (calculate_hourly_stats db rows hour_start).1 ∧
    (calculate_hourly_stats db rows hour_start).1.filter
        (fun r => r.hour_timestamp == hour_start) =
      [mkHourlyStat hour_start (hourWindow rows hour_start)] ∧
    ((calculate_hourly_stats db rows hour_start).1.filter
        (fun r => r.hour_timestamp == hour_start)).length = 1 ∧
    (calculate_hourly_stats (calculate_hourly_stats db rows hour_start).1 rows hour_start).2 =
      (calculate_hourly_stats db rows hour_start).2 := by
  have hcalc : ∀ store : List HourlyStat, calculate_hourly_stats store rows hour_start =
      (upsertHourlyStatistic store (mkHourlyStat hour_start (hourWindow rows hour_start)),
       some (mkHourlyStat hour_start (hourWindow rows hour_start))) := by
    intro store
    simp only [calculate_hourly_stats]
    rw [if_pos hne]
  rw [hcalc, hcalc]
  refine ⟨upsertHourlyStatistic_self db _, ?_, ?_, rfl⟩
  · simpa using upsertHourlyStatistic_key_rows db _ hour_start rfl
  · have h := upsertHourlyStatistic_key_rows db
      (mkHourlyStat hour_start (hourWindow rows hour_start)) hour_start rfl
    simp only [h]
    rfl

/-- C5 witness: the idempotency theorem applied to an empty store and a
single observation falling inside the hour starting at 0. -/
theorem calculate_hourly_stats_idempotent_witness :
    ((calculate_hourly_stats [] [sampleArrival] 0).1.filter
      (fun r => r.hour_timestamp == 0)).length = 1 :=
  (calculate_hourly_stats_idempotent [] [sampleArrival] 0 (by decide)).2.2.1

/-- C7: for an hour window with zero observations the aggregation writes no
row, returns the no-data result and leaves the store unchanged; it returns
an aggregate row exactly when the hour's observation count is positive. -/
theorem calculate_hourly_stats_empty_hour (db : List HourlyStat) (rows : List BusArrival)
    (hour_start : ℤ) :
    (hourWindow rows hour_start = [] →
      calculate_hourly_stats db rows hour_start = (db, none)) ∧
    ((calculate_hourly_stats db rows hour_start).2.isSome = true ↔
      0 < (hourWindow rows hour_start).length) := by
  constructor
  · intro h
    simp only [calculate_hourly_stats]
    rw [if_neg (by simp [h])]
  · simp only [calculate_hourly_stats]
    by_cases h : 0 < (hourWindow rows hour_start).length
    · rw [if_pos h]; simp [h]
    · rw [if_neg h]; simp [h]

/-- C7 witness: the empty-hour theorem applied to an empty observation
set. -/
theorem calculate_hourly_stats_empty_hour_witness :
    calculate_hourly_stats [] [] 0 = ([], none) :=
  (calculate_hourly_stats_empty_hour [] [] 0).1 rfl

/-- C8: the auto-resolve sweep runs over every open alert and resolves it
(sets its resolved-at) iff its age strictly exceeds `hours` hours, leaving
younger open alerts untouched; with the default 2-hour threshold an open
alert created 3 hours ago is resolved and one created 1 hour ago is not. -/
theorem auto_resolve_sweep (now : ℚ) (hours : ℕ) (a : StoredAlert)
    (hopen : a.resolved_at = none) :
    ((sweepAlert now hours a).resolved_at = some now ↔
      now - a.created_at > (hours : ℚ) * 3600) ∧
    (¬(now - a.created_at > (hours : ℚ) * 3600) → sweepAlert now hours a = a) ∧
    (∀ alerts : List StoredAlert,
      auto_resolve_old_alerts now hours alerts = alerts.map (sweepAlert now hours)) ∧
    (sweepAlert 0 2 alertAge3h).resolved_at = some 0 ∧
    sweepAlert 0 2 alertAge1h = alertAge1h := by
  refine ⟨?_, ?_, fun _ => rfl, ?_, ?_⟩
  · unfold sweepAlert
    by_cases h : now - a.created_at > (hours : ℚ) * 3600
    · rw [if_pos ⟨hopen, h⟩]
      simp [resolve_alert, h]
    · rw [if_neg (by tauto), hopen]
      simp [h]
  · intro h
    unfold sweepAlert
    rw [if_neg (by tauto)]
  · norm_num [sweepAlert, alertAge3h, resolve_alert]
  · norm_num [sweepAlert, alertAge1h]

/-- C8 witness: the sweep theorem applied to the 3-hour-old and 1-hour-old
open alerts with the default 2-hour threshold. -/
theorem auto_resolve_sweep_witness :
    (sweepAlert 0 2 alertAge3h).resolved_at = some 0 ∧
    sweepAlert 0 2 alertAge1h = alertAge1h :=
  ⟨((auto_resolve_sweep 0 2 alertAge3h rfl).1).mpr (by norm_num [alertAge3h]),
   (auto_resolve_sweep 0 2 alertAge1h rfl).2.1 (by norm_num [alertAge1h])⟩

/-- C9 counterexample: a service entry whose estimated-arrival value is
present but malformed is NOT skipped — `calculate_delay` swallows the parse
error and the entry is stored as an observation with delay 0. -/
theorem fetch_and_store_malformed_counterexample :
    fetch_and_store_bus_data malformedEntryStop =
      [{ bus_stop_code := "01012", bus_number := "12", load_status := "SEA",
         delay_minutes := 0 }] ∧
    fetch_and_store_bus_data malformedEntryStop ≠ [] := by
  have h1 : fetch_and_store_bus_data malformedEntryStop =
      [{ bus_stop_code := "01012", bus_number := "12", load_status := "SEA",
         delay_minutes := 0 }] := rfl
  refine ⟨h1, ?_⟩
  rw [h1]
  simp

/-- C9 amended: a stop whose fetch fails contributes no records while every
other stop's records are still collected; a service entry with an absent
estimated arrival is skipped; a service entry with a malformed (present but
unparseable) estimated arrival is logged and stored with delay 0 rather
than skipped. -/
theorem fetch_and_store_error_isolation
    (pre post : List (String × Except String (List ServiceEntry))) (code msg : String) :
    fetch_and_store_bus_data (pre ++ (code, Except.error msg) :: post) =
      fetch_and_store_bus_data pre ++ fetch_and_store_bus_data post ∧
    (∀ stop s, s.next_bus_est = EstArrival.absent →
      recordsForStop stop (Except.ok [s]) = []) ∧
    (∀ stop s, s.next_bus_est = EstArrival.present none →
      recordsForStop stop (Except.ok [s]) =
        [{ bus_stop_code := stop, bus_number := s.service_no, load_status := s.load,
           delay_minutes := 0 }]) := by
  refine ⟨?_, ?_, ?_⟩
  · simp [fetch_and_store_bus_data, recordsForStop]
  · intro stop s h
    simp [recordsForStop, h]
  · intro stop s h
    simp [recordsForStop, h, calculate_delay]

/-- C9 witness: one healthy stop followed by one failed fetch — the batch is
exactly the healthy stop's records, through the isolation theorem. -/
theorem fetch_and_store_error_isolation_witness :
    fetch_and_store_bus_data
        ([( "01013", Except.ok [okStopEntry])] ++
          ( "01019", Except.error ( "timeout" )) :: []) =
      fetch_and_store_bus_data [( "01013", Except.ok [okStopEntry])] ++
        fetch_and_store_bus_data [] :=
  (fetch_and_store_error_isolation [( "01013", Except.ok [okStopEntry])] []
    "01019" "timeout").1

/-- C10: every store reachable through the hourly aggregation keeps the
invariant that each `hourly_statistics` row has `total_buses ≥ 1` (the
aggregator writes only for a non-empty hour), and for statistics read back
from such a store the current row's total is nonzero as a rational, so the
unguarded division `lsd_count / total_buses` in
`check_and_create_alerts` (and the guarded one in
`get_current_vs_historical`) never divides by zero. -/
theorem hourly_total_buses_positive :
    (∀ (db : List HourlyStat) (rows : List BusArrival) (hour_start : ℤ),
      allTotalsPos db = true →
      allTotalsPos (calculate_hourly_stats db rows hour_start).1 = true) ∧
    (∀ (stats : List HourlyStat) (c : AnalysisRecord),
      allTotalsPos stats = true →
      get_current_vs_historical stats = Except.ok c →
      1 ≤ c.current_stats.total_buses ∧ ((c.current_stats.total_buses : ℚ) ≠ 0)) := by
  have hmem : ∀ db : List HourlyStat,
      allTotalsPos db = true ↔ ∀ r ∈ db, 1 ≤ r.total_buses := by
    intro db
    simp [allTotalsPos, List.all_eq_true]
  constructor
  · intro db rows hour_start hdb
    rw [hmem] at hdb ⊢
    intro r hr
    simp only [calculate_hourly_stats] at hr
    by_cases h : 0 < (hourWindow rows hour_start).length
    · rw [if_pos h] at hr
      simp only [upsertHourlyStatistic] at hr
      rcases List.mem_append.mp hr with h1 | h2
      · exact hdb r (List.mem_of_mem_filter h1)
      · rw [List.mem_singleton.mp h2]
        exact h
    · rw [if_neg h] at hr
      exact hdb r hr
  · intro stats c hstats hok
    rw [hmem] at hstats
    cases stats with
    | nil => simp [get_current_vs_historical] at hok
    | cons a l =>
        obtain ⟨cur, hcur, hmemcur⟩ := exists_getLast?_mem a l
        unfold get_current_vs_historical at hok
        rw [List.isEmpty_cons, if_neg (by simp), hcur] at hok
        rw [← Except.ok.inj hok]
        have h1 : 1 ≤ cur.total_buses := hstats cur hmemcur
        refine ⟨h1, ?_⟩
        show ((cur.total_buses : ℚ) ≠ 0)
        exact Nat.cast_ne_zero.mpr (by omega)

/-- C10 witness: the preservation half applied to the empty store and one
concrete observation. -/
theorem hourly_total_buses_positive_witness :
    allTotalsPos (calculate_hourly_stats [] [sampleArrival] 0).1 = true :=
  hourly_total_buses_positive.1 [] [sampleArrival] 0 rfl
